import Mathlib

/-!
Shallow embedding of the `egui-file-dialog` controller (`src/lib.rs`).

Paths are modelled as lists of components; a component (`FName`) is either
text-representable (`txt`) or not representable as text (`raw`, standing for
a non-UTF-8 `OsStr`).  The filesystem is a parameter (`Fs`) recording the
outcomes of `fs::canonicalize`, `fs::read_dir`, `Path::is_dir`,
`Path::is_file`, `Path::exists` and `fs::create_dir`.  Each controller
method from the source becomes a state-passing function; methods returning
`io::Result<()>` return a `RunResult` (`ok` / `err`, plus `crash` for the
`unwrap()` in `load_next_directory` that can panic) together with the
mutated state.  The GUI layer is out of scope except for the small pieces of
state logic embedded in it (the central-panel entry filter and the
insertion/selection of a freshly created directory).
-/

namespace EguiFileDialog

/-- A path component: `txt s` is a name representable as text (`to_str`
succeeds), `raw n` is a name that cannot be represented as text. -/
inductive FName where
  | txt (s : String)
  | raw (n : Nat)
deriving DecidableEq, Repr

/-- A filesystem path, as its list of components from the root. -/
abbrev FsPath := List FName

/-- `FileDialog::get_file_name` (src/lib.rs:517-525): `file_name()` followed
by `to_str()`; `none` when the path has no last component or the last
component is not representable as text. -/
def getFileName (p : FsPath) : Option String :=
  match p.getLast? with
  | some (FName.txt s) => some s
  | _ => none

/-- The filesystem environment: outcomes of every filesystem call the
controller makes.  `canonicalize p = none` models an `io::Error`;
`readDir p = none` models `fs::read_dir` failing, `readDir p = some es`
gives the iterator items, each `some entryPath` (an `Ok` entry) or `none`
(an `Err` item); `createDir p = some msg` models `fs::create_dir` failing
with error message `msg`. -/
structure Fs where
  canonicalize : FsPath → Option FsPath
  readDir : FsPath → Option (List (Option FsPath))
  isDir : FsPath → Bool
  isFile : FsPath → Bool
  pathExists : FsPath → Bool
  createDir : FsPath → Option String

/-- `DialogMode` (src/lib.rs:7-12). -/
inductive DialogMode where
  | SelectFile
  | SelectDirectory
  | SaveFile
deriving DecidableEq, Repr

/-- `DialogState` (src/lib.rs:14-20). -/
inductive DialogState where
  | Open
  | Closed
  | Selected (p : FsPath)
  | Cancelled
deriving DecidableEq, Repr

/-- `CreateDirectoryDialog` (src/lib.rs:687-694); `open` is a Lean keyword,
hence the field name `open_`. -/
structure CreateDirectoryDialog where
  open_ : Bool
  init : Bool
  directory : Option FsPath
  input : String
  error : Option String
deriving DecidableEq, Repr

namespace CreateDirectoryDialog

/-- `CreateDirectoryDialog::new` (src/lib.rs:697-706). -/
def new : CreateDirectoryDialog :=
  { open_ := false, init := false, directory := none, input := "", error := none }

/-- `CreateDirectoryDialog::reset` (src/lib.rs:812-817).  Note that the
source clears `open`, `init`, `directory` and `input` but not `error`. -/
def reset (d : CreateDirectoryDialog) : CreateDirectoryDialog :=
  { d with open_ := false, init := false, directory := none, input := "" }

/-- `CreateDirectoryDialog::close` (src/lib.rs:716-718). -/
def close (d : CreateDirectoryDialog) : CreateDirectoryDialog :=
  d.reset

/-- `CreateDirectoryDialog::open` (src/lib.rs:708-714). -/
def openWith (d : CreateDirectoryDialog) (directory : FsPath) : CreateDirectoryDialog :=
  let d := d.reset
  { d with open_ := true, init := true, directory := some directory }

/-- `CreateDirectoryDialog::create_directory` (src/lib.rs:766-788).  Returns
the `CreateDirectoryResponse` payload (`Option FsPath`) and the new dialog
state. -/
def create_directory (fs : Fs) (d : CreateDirectoryDialog) :
    Option FsPath × CreateDirectoryDialog :=
  match d.directory with
  | some dir0 =>
      let dir := dir0 ++ [FName.txt d.input]
      match fs.createDir dir with
      | none => (some dir, d.close)
      | some err => (none, { d with error := some ("Error: " ++ err) })
  | none => (none, { d with error := some "No directory given" })

/-- `CreateDirectoryDialog::validate_input` (src/lib.rs:790-810). -/
def validate_input (fs : Fs) (d : CreateDirectoryDialog) : Option String :=
  if d.input.isEmpty then
    some "Name of the folder can not be empty"
  else
    match d.directory with
    | some x =>
        if fs.isDir (x ++ [FName.txt d.input]) then
          some "A directory with the name already exists"
        else
          none
    | none => some "No directory given"

end CreateDirectoryDialog

/-- `FileDialog` (src/lib.rs:22-42).  The `user_directories` and
`system_disks` fields are external display-only data sources and are not
modelled. -/
structure FileDialog where
  mode : DialogMode
  state : DialogState
  initial_directory : FsPath
  directory_stack : List FsPath
  directory_offset : Nat
  directory_content : List FsPath
  create_directory_dialog : CreateDirectoryDialog
  selected_item : Option FsPath
  file_name_input : String
  file_name_input_error : Option String
  scroll_to_selection : Bool
  search_value : String
deriving DecidableEq, Repr

/-- Outcome of a controller method returning `io::Result<()>`: `ok`/`err`
mirror `Ok(())`/`Err(_)`; `crash` marks the `unwrap()` panic reachable in
`load_next_directory`. -/
inductive RunResult where
  | ok
  | err
  | crash
deriving DecidableEq, Repr

namespace FileDialog

/-- `FileDialog::current_directory` (src/lib.rs:509-515):
`directory_stack.iter().nth_back(directory_offset)`, i.e. the
`directory_offset`-th element counted from the back. -/
def current_directory (fd : FileDialog) : Option FsPath :=
  fd.directory_stack.reverse[fd.directory_offset]?

/-- `FileDialog::validate_file_name_input` (src/lib.rs:545-564). -/
def validate_file_name_input (fs : Fs) (fd : FileDialog) : Option String :=
  if fd.file_name_input.isEmpty then
    some "The file name cannot be empty"
  else
    match fd.current_directory with
    | some x =>
        let full_path := x ++ [FName.txt fd.file_name_input]
        if fs.pathExists full_path && fs.isFile full_path then
          some "A file with this name already exists"
        else
          none
    | none => some "Currently not in a directory"

/-- `FileDialog::is_selection_valid` (src/lib.rs:527-543). -/
def is_selection_valid (fs : Fs) (fd : FileDialog) : Bool :=
  match fd.selected_item with
  | some selection =>
      match fd.mode with
      | DialogMode.SelectDirectory => fs.isDir selection && (getFileName selection).isSome
      | DialogMode.SelectFile => fs.isFile selection && (getFileName selection).isSome
      | DialogMode.SaveFile => fd.file_name_input_error.isNone
  | none => fd.mode == DialogMode.SaveFile && fd.file_name_input_error.isNone

/-- `FileDialog::select_item` (src/lib.rs:566-575). -/
def select_item (fs : Fs) (fd : FileDialog) (path : FsPath) : FileDialog :=
  let fd := { fd with selected_item := some path }
  if fd.mode == DialogMode.SaveFile && fs.isFile path then
    match getFileName path with
    | some file_name =>
        let fd := { fd with file_name_input := file_name }
        { fd with file_name_input_error := fd.validate_file_name_input fs }
    | none => fd
  else
    fd

/-- `FileDialog::load_directory_content` (src/lib.rs:640-662).  On
`read_dir` failure nothing is mutated; on success the create-directory
dialog is closed, the content replaced by the `Ok` entries, and in
`SaveFile` mode the save-name error is recomputed. -/
def load_directory_content (fs : Fs) (fd : FileDialog) (path : FsPath) :
    RunResult × FileDialog :=
  match fs.readDir path with
  | none => (RunResult.err, fd)
  | some paths =>
      let fd := { fd with
        create_directory_dialog := fd.create_directory_dialog.close,
        directory_content := paths.filterMap id,
        scroll_to_selection := true }
      let fd :=
        if fd.mode == DialogMode.SaveFile then
          { fd with file_name_input_error := fd.validate_file_name_input fs }
        else
          fd
      (RunResult.ok, fd)

/-- `FileDialog::load_directory` (src/lib.rs:621-638).  Same path → no-op;
otherwise drop the forward entries when `offset ≠ 0 ∧ len > offset`
(`drain(len - offset ..)` is `take (len - offset)`), then push the
canonicalized path — the `?` on `fs::canonicalize` aborts *after* the drain
but before the push — reset the offset and load the content. -/
def load_directory (fs : Fs) (fd : FileDialog) (path : FsPath) :
    RunResult × FileDialog :=
  if fd.current_directory = some path then
    (RunResult.ok, fd)
  else
    let fd :=
      if fd.directory_offset ≠ 0 ∧ fd.directory_stack.length > fd.directory_offset then
        { fd with directory_stack :=
            fd.directory_stack.take (fd.directory_stack.length - fd.directory_offset) }
      else
        fd
    match fs.canonicalize path with
    | none => (RunResult.err, fd)
    | some canon =>
        let fd := { fd with
          directory_stack := fd.directory_stack ++ [canon],
          directory_offset := 0 }
        fd.load_directory_content fs path

/-- `FileDialog::load_next_directory` (src/lib.rs:577-588).  The source
calls `self.current_directory().unwrap()` after the decrement; `crash`
models the panic when it is `None`. -/
def load_next_directory (fs : Fs) (fd : FileDialog) : RunResult × FileDialog :=
  if fd.directory_offset = 0 then
    (RunResult.ok, fd)
  else
    let fd := { fd with directory_offset := fd.directory_offset - 1 }
    match fd.current_directory with
    | some path => fd.load_directory_content fs path
    | none => (RunResult.crash, fd)

/-- `FileDialog::load_previous_directory` (src/lib.rs:590-601). -/
def load_previous_directory (fs : Fs) (fd : FileDialog) : RunResult × FileDialog :=
  if fd.directory_offset + 1 ≥ fd.directory_stack.length then
    (RunResult.ok, fd)
  else
    let fd := { fd with directory_offset := fd.directory_offset + 1 }
    match fd.current_directory with
    | some path => fd.load_directory_content fs path
    | none => (RunResult.crash, fd)

/-- `FileDialog::reload_directory` (src/lib.rs:613-619). -/
def reload_directory (fs : Fs) (fd : FileDialog) : RunResult × FileDialog :=
  match fd.current_directory with
  | some x => fd.load_directory_content fs x
  | none => (RunResult.ok, fd)

/-- `FileDialog::refresh` (src/lib.rs:494-499); re-fetching the user
directories and system disks is external data and not modelled. -/
def refresh (fs : Fs) (fd : FileDialog) : FileDialog :=
  (fd.reload_directory fs).2

/-- `FileDialog::reset` (src/lib.rs:476-492).  Note that the source does
not reset `file_name_input_error`, `mode` or `initial_directory`. -/
def reset (fd : FileDialog) : FileDialog :=
  { fd with
    state := DialogState.Closed,
    directory_stack := [],
    directory_offset := 0,
    directory_content := [],
    create_directory_dialog := CreateDirectoryDialog.new,
    selected_item := none,
    file_name_input := "",
    scroll_to_selection := false,
    search_value := "" }

/-- `FileDialog::open` (src/lib.rs:80-88); `open` is a Lean keyword, hence
`openDialog`.  The result of `load_directory` is discarded (`let _ = ...`). -/
def openDialog (fs : Fs) (fd : FileDialog) (mode : DialogMode) : FileDialog :=
  let fd := fd.reset
  let fd := { fd with mode := mode, state := DialogState.Open }
  (fd.load_directory fs fd.initial_directory).2

end FileDialog

/-- Case-insensitive substring test, embedding
`file_name.to_lowercase().contains(&search_value.to_lowercase())`
(src/lib.rs:352-353). -/
def strContains (hay needle : String) : Bool :=
  hay.toLower.data.tails.any (fun t => needle.toLower.data.isPrefixOf t)

/-- The entries the central panel actually displays
(src/lib.rs:349-355): entries whose file name does not resolve to text are
skipped (`let Some(file_name) = ... else continue`), then the search filter
is applied. -/
def displayed_entries (fd : FileDialog) : List FsPath :=
  fd.directory_content.filter (fun path =>
    match getFileName path with
    | none => false
    | some file_name =>
        fd.search_value.isEmpty || strContains file_name fd.search_value)

/-- The parent's handling of a create-directory result
(src/lib.rs:399-402): push the new directory into the listing and select
it. -/
def apply_create_directory_response (fs : Fs) (fd : FileDialog)
    (resp : Option FsPath) : FileDialog :=
  match resp with
  | some dir =>
      FileDialog.select_item fs
        { fd with directory_content := fd.directory_content ++ [dir] } dir
  | none => fd

/-- The history invariant claimed by the spec: whenever the stack is
non-empty, `directory_offset < directory_stack.length`. -/
def histInv (fd : FileDialog) : Prop :=
  fd.directory_stack = [] ∨ fd.directory_offset < fd.directory_stack.length

instance (fd : FileDialog) : Decidable (histInv fd) := by
  unfold histInv; infer_instance

/-- `FileDialog::new` (src/lib.rs:51-73) followed by the
`initial_directory` builder (src/lib.rs:75-78); the initial directory is a
parameter instead of the process working directory. -/
def FileDialog.new (initial : FsPath) : FileDialog :=
  { mode := DialogMode.SelectDirectory,
    state := DialogState.Closed,
    initial_directory := initial,
    directory_stack := [],
    directory_offset := 0,
    directory_content := [],
    create_directory_dialog := CreateDirectoryDialog.new,
    selected_item := none,
    file_name_input := "",
    file_name_input_error := none,
    scroll_to_selection := false,
    search_value := "" }

/-! Concrete fixtures used to evaluate the development on closed inputs. -/

def pA : FsPath := [FName.txt "a"]

def pB : FsPath := [FName.txt "b"]

def pC : FsPath := [FName.txt "c"]

def pP : FsPath := [FName.txt "p"]

/-- A filesystem on which every directory read succeeds with an empty
listing and canonicalization is the identity. -/
def fsOk : Fs :=
  { canonicalize := fun q => some q,
    readDir := fun _ => some [],
    isDir := fun _ => false,
    isFile := fun _ => false,
    pathExists := fun _ => false,
    createDir := fun _ => none }

/-- A filesystem on which canonicalizing `pP` fails and everything else
behaves like `fsOk`. -/
def fsC1 : Fs :=
  { fsOk with canonicalize := fun q => if q = pP then none else some q }

/-- A filesystem on which canonicalization succeeds but every directory
read fails. -/
def fsReadFail : Fs :=
  { fsOk with readDir := fun _ => none }

/-- A filesystem whose directory reads return a single entry whose name is
not representable as text. -/
def fsRaw : Fs :=
  { fsOk with readDir := fun _ => some [some [FName.raw 0]] }

/-- The reachable run behind the C1 counterexample: open at `a`, navigate
to `b`, then `c`, go back twice (offset 2), then navigate to `p` whose
canonicalization fails: the drain has already dropped the forward entries
but the offset is never reset. -/
def fdC1run : FileDialog :=
  let fd := FileDialog.openDialog fsC1 (FileDialog.new pA) DialogMode.SelectDirectory
  let fd := (fd.load_directory fsC1 pB).2
  let fd := (fd.load_directory fsC1 pC).2
  let fd := (fd.load_previous_directory fsC1).2
  let fd := (fd.load_previous_directory fsC1).2
  (fd.load_directory fsC1 pP).2

/-- The run behind the C2 counterexample: open at `a`, select `c`, then
navigate to `b` successfully. -/
def fdC2pre : FileDialog :=
  let fd := FileDialog.openDialog fsOk (FileDialog.new pA) DialogMode.SelectFile
  fd.select_item fsOk pC

def fdC2run : RunResult × FileDialog :=
  fdC2pre.load_directory fsOk pB

/-- The run behind the C7 counterexample: a dialog carrying a stale
save-name error is re-opened while directory reading fails. -/
def fdC7pre : FileDialog :=
  { FileDialog.new pA with file_name_input_error := some "stale" }

def fdC7run : FileDialog :=
  FileDialog.openDialog fsReadFail fdC7pre DialogMode.SelectFile

/-- The run behind the C9 counterexample: loading a directory whose only
entry has a non-representable name. -/
def fdC9run : RunResult × FileDialog :=
  (FileDialog.new pA).load_directory_content fsRaw pA

/-! Helper lemmas shared by several claims. -/

theorem ldc_stack (fs : Fs) (fd : FileDialog) (path : FsPath) :
    (fd.load_directory_content fs path).2.directory_stack = fd.directory_stack := by
  unfold FileDialog.load_directory_content
  cases fs.readDir path
  · rfl
  · dsimp only
    split <;> rfl

theorem ldc_offset (fs : Fs) (fd : FileDialog) (path : FsPath) :
    (fd.load_directory_content fs path).2.directory_offset = fd.directory_offset := by
  unfold FileDialog.load_directory_content
  cases fs.readDir path
  · rfl
  · dsimp only
    split <;> rfl

theorem ldc_selected (fs : Fs) (fd : FileDialog) (path : FsPath) :
    (fd.load_directory_content fs path).2.selected_item = fd.selected_item := by
  unfold FileDialog.load_directory_content
  cases fs.readDir path
  · rfl
  · dsimp only
    split <;> rfl

theorem ldc_current (fs : Fs) (fd : FileDialog) (path : FsPath) :
    (fd.load_directory_content fs path).2.current_directory = fd.current_directory := by
  unfold FileDialog.current_directory
  rw [ldc_stack, ldc_offset]

/-- `validate_file_name_input` does not read `file_name_input_error`. -/
theorem validate_ignores_error (fs : Fs) (fd : FileDialog) (e : Option String) :
    FileDialog.validate_file_name_input fs { fd with file_name_input_error := e }
      = fd.validate_file_name_input fs := rfl

/-- C10: when `fs::read_dir` fails, `load_directory_content` returns the
error with the controller state unchanged: the previous listing is
retained, an open create-directory sub-dialog is not closed, and the
save-name validation error is not recomputed. -/
theorem C10_read_dir_failure_state_unchanged (fs : Fs) (fd : FileDialog) (path : FsPath)
    (h : fs.readDir path = none) :
    fd.load_directory_content fs path = (RunResult.err, fd) := by
  unfold FileDialog.load_directory_content
  rw [h]

theorem C10_witness :
    (FileDialog.new pA).load_directory_content fsReadFail pA
      = (RunResult.err, FileDialog.new pA) :=
  C10_read_dir_failure_state_unchanged fsReadFail (FileDialog.new pA) pA rfl

/-- C6: `validate_file_name_input` on an empty input always yields an
error; on a non-empty input with a current directory `x` it yields an
error iff `x/input` exists and is a regular file; with no current
directory it yields the defensive "Currently not in a directory" error. -/
theorem C6_validate_save_name (fs : Fs) (fd : FileDialog) :
    (fd.file_name_input = "" → (fd.validate_file_name_input fs).isSome = true)
    ∧ (fd.file_name_input ≠ "" → ∀ x, fd.current_directory = some x →
        ((fd.validate_file_name_input fs).isSome = true ↔
          fs.pathExists (x ++ [FName.txt fd.file_name_input]) = true ∧
          fs.isFile (x ++ [FName.txt fd.file_name_input]) = true))
    ∧ (fd.file_name_input ≠ "" → fd.current_directory = none →
        fd.validate_file_name_input fs = some "Currently not in a directory") := by
  unfold FileDialog.validate_file_name_input
  refine ⟨?_, ?_, ?_⟩
  · intro h
    simp [String.isEmpty_iff, h]
  · intro h x hx
    rw [hx]
    simp only [String.isEmpty_iff, h, if_false]
    constructor
    · intro hs
      split at hs
      · next hcond => exact Bool.and_eq_true _ _ |>.mp hcond
      · simp at hs
    · rintro ⟨h1, h2⟩
      simp [h1, h2]
  · intro h hx
    rw [hx]
    simp [String.isEmpty_iff, h]

theorem C6_witness :
    ((FileDialog.new pA).validate_file_name_input fsOk).isSome = true :=
  (C6_validate_save_name fsOk (FileDialog.new pA)).1 rfl

/-- C5: `is_selection_valid` is false when no item is selected, except in
SaveFile mode with no save-name error; with a selected item it is
equivalent to the mode-specific condition (existing directory with
resolvable name, existing regular file with resolvable name, or absence of
a save-name error). -/
theorem C5_selection_validity (fs : Fs) (fd : FileDialog) :
    (fd.selected_item = none →
      (fd.is_selection_valid fs = true ↔
        fd.mode = DialogMode.SaveFile ∧ fd.file_name_input_error = none))
    ∧ (∀ sel, fd.selected_item = some sel →
        (fd.mode = DialogMode.SelectDirectory →
          (fd.is_selection_valid fs = true ↔
            fs.isDir sel = true ∧ (getFileName sel).isSome = true))
        ∧ (fd.mode = DialogMode.SelectFile →
          (fd.is_selection_valid fs = true ↔
            fs.isFile sel = true ∧ (getFileName sel).isSome = true))
        ∧ (fd.mode = DialogMode.SaveFile →
          (fd.is_selection_valid fs = true ↔ fd.file_name_input_error = none))) := by
  constructor
  · intro h
    unfold FileDialog.is_selection_valid
    rw [h]
    cases hm : fd.mode <;>
      simp [hm, Option.isNone_iff_eq_none]
  · intro sel hsel
    unfold FileDialog.is_selection_valid
    rw [hsel]
    refine ⟨?_, ?_, ?_⟩ <;> intro hm <;>
      simp [hm, Option.isNone_iff_eq_none]

theorem C5_witness :
    ¬ (FileDialog.new pA).is_selection_valid fsOk = true := by
  have h := ((C5_selection_validity fsOk (FileDialog.new pA)).1 rfl)
  intro hv
  exact absurd (h.mp hv).1 (by decide)

theorem select_item_selected (fs : Fs) (fd : FileDialog) (p : FsPath) :
    (fd.select_item fs p).selected_item = some p := by
  unfold FileDialog.select_item
  dsimp only
  split
  · split <;> rfl
  · rfl

theorem select_item_content (fs : Fs) (fd : FileDialog) (p : FsPath) :
    (fd.select_item fs p).directory_content = fd.directory_content := by
  unfold FileDialog.select_item
  dsimp only
  split
  · split <;> rfl
  · rfl

/-- The fixture sub-dialog used as C8's witness input. -/
def dFix : CreateDirectoryDialog :=
  { open_ := true, init := false, directory := some pA, input := "n", error := none }

/-- C8: committing the create-directory sub-dialog attempts creation at
`parent/input`; on success it closes the sub-dialog and returns the new
path, which the parent appends to the listing and selects; on failure it
surfaces the underlying error as the field error, stays open, and leaves
the input text unchanged. -/
theorem C8_create_directory_commit (fs : Fs) (d : CreateDirectoryDialog) (parent : FsPath)
    (hdir : d.directory = some parent) :
    (fs.createDir (parent ++ [FName.txt d.input]) = none →
       (d.create_directory fs).1 = some (parent ++ [FName.txt d.input])
       ∧ (d.create_directory fs).2.open_ = false
       ∧ ∀ fd : FileDialog,
           (apply_create_directory_response fs fd (d.create_directory fs).1).directory_content
             = fd.directory_content ++ [parent ++ [FName.txt d.input]]
           ∧ (apply_create_directory_response fs fd (d.create_directory fs).1).selected_item
             = some (parent ++ [FName.txt d.input]))
    ∧ (∀ e, fs.createDir (parent ++ [FName.txt d.input]) = some e →
       (d.create_directory fs).1 = none
       ∧ (d.create_directory fs).2.error = some ("Error: " ++ e)
       ∧ (d.create_directory fs).2.open_ = d.open_
       ∧ (d.create_directory fs).2.input = d.input) := by
  unfold CreateDirectoryDialog.create_directory
  rw [hdir]
  dsimp only
  constructor
  · intro hc
    rw [hc]
    refine ⟨rfl, rfl, ?_⟩
    intro fd
    unfold apply_create_directory_response
    dsimp only
    rw [select_item_content, select_item_selected]
    exact ⟨rfl, rfl⟩
  · intro e hc
    rw [hc]
    exact ⟨rfl, rfl, rfl, rfl⟩

theorem C8_witness :
    (dFix.create_directory fsOk).1 = some (pA ++ [FName.txt "n"])
    ∧ (dFix.create_directory fsOk).2.open_ = false :=
  ⟨((C8_create_directory_commit fsOk dFix pA rfl).1 rfl).1,
   ((C8_create_directory_commit fsOk dFix pA rfl).1 rfl).2.1⟩

/-- C4: when back succeeds (`offset + 1 < stack.length`), back followed by
forward restores the prior current directory; back increments the offset
and forward decrements it; each is a no-op at its boundary. -/
theorem C4_back_forward_inverse (fs : Fs) (fd : FileDialog) :
    (fd.directory_offset + 1 < fd.directory_stack.length →
       (fd.load_previous_directory fs).2.directory_offset = fd.directory_offset + 1
       ∧ ((fd.load_previous_directory fs).2.load_next_directory fs).2.directory_offset
           = fd.directory_offset
       ∧ ((fd.load_previous_directory fs).2.load_next_directory fs).2.current_directory
           = fd.current_directory)
    ∧ (fd.directory_stack.length ≤ fd.directory_offset + 1 →
        (fd.load_previous_directory fs).2 = fd)
    ∧ (fd.directory_offset = 0 → (fd.load_next_directory fs).2 = fd)
    ∧ (fd.directory_offset ≠ 0 →
        (fd.load_next_directory fs).2.directory_offset = fd.directory_offset - 1
        ∧ (fd.load_next_directory fs).2.directory_stack = fd.directory_stack) := by
  have hprev : ∀ (g : FileDialog), ¬ g.directory_offset + 1 ≥ g.directory_stack.length →
      (g.load_previous_directory fs).2.directory_stack = g.directory_stack
      ∧ (g.load_previous_directory fs).2.directory_offset = g.directory_offset + 1 := by
    intro g hg
    unfold FileDialog.load_previous_directory
    rw [if_neg hg]
    dsimp only
    split
    · rw [ldc_stack, ldc_offset]
      exact ⟨rfl, rfl⟩
    · exact ⟨rfl, rfl⟩
  have hnext : ∀ (g : FileDialog), g.directory_offset ≠ 0 →
      (g.load_next_directory fs).2.directory_stack = g.directory_stack
      ∧ (g.load_next_directory fs).2.directory_offset = g.directory_offset - 1 := by
    intro g hg
    unfold FileDialog.load_next_directory
    rw [if_neg hg]
    dsimp only
    split
    · rw [ldc_stack, ldc_offset]
      exact ⟨rfl, rfl⟩
    · exact ⟨rfl, rfl⟩
  refine ⟨?_, ?_, ?_, ?_⟩
  · intro h
    have h1 := hprev fd (by omega)
    have h2 := hnext (fd.load_previous_directory fs).2 (by omega)
    refine ⟨h1.2, ?_, ?_⟩
    · rw [h2.2, h1.2]
      omega
    · unfold FileDialog.current_directory
      rw [h2.1, h1.1, h2.2, h1.2]
      simp
  · intro h
    unfold FileDialog.load_previous_directory
    rw [if_pos h]
  · intro h
    unfold FileDialog.load_next_directory
    rw [if_pos h]
  · intro h
    have h2 := hnext fd h
    exact ⟨h2.2, h2.1⟩

/-- The state behind the C4 witness: open at `a`, then navigate to `b`,
so the stack is `[a, b]` with offset 0. -/
def fdC4pre : FileDialog :=
  let fd := FileDialog.openDialog fsOk (FileDialog.new pA) DialogMode.SelectDirectory
  (fd.load_directory fsOk pB).2

theorem C4_witness :
    ((fdC4pre.load_previous_directory fsOk).2.load_next_directory fsOk).2.current_directory
      = fdC4pre.current_directory :=
  ((C4_back_forward_inverse fsOk fdC4pre).1 (by decide)).2.2


theorem load_directory_canon_of_ok (fs : Fs) (fd : FileDialog) (path : FsPath)
    (hne : fd.current_directory ≠ some path)
    (hok : (fd.load_directory fs path).1 = RunResult.ok) :
    ∃ canon, fs.canonicalize path = some canon := by
  unfold FileDialog.load_directory at hok
  rw [if_neg hne] at hok
  dsimp only at hok
  cases hc : fs.canonicalize path
  · rw [hc] at hok
    simp at hok
  · exact ⟨_, rfl⟩

theorem ldc_readDir_of_ok (fs : Fs) (fd : FileDialog) (path : FsPath)
    (hok : (fd.load_directory_content fs path).1 = RunResult.ok) :
    ∃ es, fs.readDir path = some es := by
  unfold FileDialog.load_directory_content at hok
  cases hr : fs.readDir path
  · rw [hr] at hok
    simp at hok
  · exact ⟨_, rfl⟩

/-- Decomposition of the non-trivial path through `load_directory` when
canonicalization succeeds: the history is edited first, then
`load_directory_content` runs on the edited state. -/
theorem load_directory_eq_content (fs : Fs) (fd : FileDialog) (path canon : FsPath)
    (hne : fd.current_directory ≠ some path)
    (hc : fs.canonicalize path = some canon) :
    ∃ fd2 : FileDialog,
      fd.load_directory fs path = fd2.load_directory_content fs path
      ∧ fd2.mode = fd.mode
      ∧ fd2.selected_item = fd.selected_item
      ∧ fd2.directory_stack =
          (if fd.directory_offset ≠ 0 ∧ fd.directory_stack.length > fd.directory_offset
            then fd.directory_stack.take (fd.directory_stack.length - fd.directory_offset)
            else fd.directory_stack) ++ [canon]
      ∧ fd2.directory_offset = 0 := by
  unfold FileDialog.load_directory
  rw [if_neg hne]
  dsimp only
  rw [hc]
  by_cases hd : fd.directory_offset ≠ 0 ∧ fd.directory_stack.length > fd.directory_offset
  · rw [if_pos hd]
    exact ⟨_, rfl, rfl, rfl, by rw [if_pos hd], rfl⟩
  · rw [if_neg hd]
    exact ⟨_, rfl, rfl, rfl, by rw [if_neg hd], rfl⟩

theorem load_directory_same (fs : Fs) (fd : FileDialog) (path : FsPath)
    (h : fd.current_directory = some path) :
    fd.load_directory fs path = (RunResult.ok, fd) := by
  unfold FileDialog.load_directory
  rw [if_pos h]

theorem load_directory_canon_fail (fs : Fs) (fd : FileDialog) (path : FsPath)
    (hne : fd.current_directory ≠ some path)
    (h0 : fd.directory_offset = 0)
    (hc : fs.canonicalize path = none) :
    fd.load_directory fs path = (RunResult.err, fd) := by
  unfold FileDialog.load_directory
  rw [if_neg hne]
  dsimp only
  rw [hc, if_neg (by simp [h0])]

theorem ldc_dialog_closed (fs : Fs) (fd : FileDialog) (path : FsPath)
    (es : List (Option FsPath)) (h : fs.readDir path = some es) :
    (fd.load_directory_content fs path).2.create_directory_dialog.open_ = false := by
  unfold FileDialog.load_directory_content
  rw [h]
  dsimp only
  split <;> rfl

theorem ldc_revalidates (fs : Fs) (fd : FileDialog) (path : FsPath)
    (es : List (Option FsPath)) (h : fs.readDir path = some es)
    (hm : fd.mode = DialogMode.SaveFile) :
    (fd.load_directory_content fs path).2.file_name_input_error
      = FileDialog.validate_file_name_input fs (fd.load_directory_content fs path).2 := by
  unfold FileDialog.load_directory_content
  rw [h]
  dsimp only
  split
  · rfl
  · next hcond => exact absurd (by simp [hm]) hcond

/-- C2 (amended): after a successful navigate to a path different from the
current directory, the create-directory sub-dialog is closed and, in
SaveFile mode, save-name validation is re-run against the new state; the
selection is left unchanged, not cleared. -/
theorem C2_navigate_effects (fs : Fs) (fd : FileDialog) (path : FsPath)
    (hne : fd.current_directory ≠ some path)
    (hok : (fd.load_directory fs path).1 = RunResult.ok) :
    (fd.load_directory fs path).2.create_directory_dialog.open_ = false
    ∧ (fd.load_directory fs path).2.selected_item = fd.selected_item
    ∧ (fd.mode = DialogMode.SaveFile →
        (fd.load_directory fs path).2.file_name_input_error
          = FileDialog.validate_file_name_input fs (fd.load_directory fs path).2) := by
  obtain ⟨canon, hc⟩ := load_directory_canon_of_ok fs fd path hne hok
  obtain ⟨fd2, heq, hmode, hsel, -, -⟩ := load_directory_eq_content fs fd path canon hne hc
  rw [heq] at hok ⊢
  obtain ⟨es, hr⟩ := ldc_readDir_of_ok fs fd2 path hok
  refine ⟨ldc_dialog_closed fs fd2 path es hr, ?_, ?_⟩
  · rw [ldc_selected, hsel]
  · intro hm
    exact ldc_revalidates fs fd2 path es hr (hmode.trans hm)

/-- C2: the claim fails on the code — a successful navigate to a new
directory does not clear `selected_item`; the selection made before the
navigation is still present afterwards. -/
theorem C2_counterexample :
    fdC2run.1 = RunResult.ok ∧ fdC2run.2.selected_item = some pC := by decide

theorem C2_witness :
    ((fdC2pre.load_directory fsOk pB).2.create_directory_dialog.open_ = false)
    ∧ (fdC2pre.load_directory fsOk pB).2.selected_item = fdC2pre.selected_item :=
  ⟨(C2_navigate_effects fsOk fdC2pre pB (by decide) (by decide)).1,
   (C2_navigate_effects fsOk fdC2pre pB (by decide) (by decide)).2.1⟩

/-- C3: navigating from a back-navigated state (`offset > 0`, invariant in
force) to a new path whose canonicalization succeeds drops exactly the
last `offset` stack entries (the forward entries), keeps the current entry
as the last retained one, then pushes the canonicalized path and resets
the offset to 0. -/
theorem C3_navigate_truncates_forward (fs : Fs) (fd : FileDialog) (p canon : FsPath)
    (hoff : fd.directory_offset ≠ 0)
    (hlt : fd.directory_offset < fd.directory_stack.length)
    (hne : fd.current_directory ≠ some p)
    (hc : fs.canonicalize p = some canon) :
    (fd.load_directory fs p).2.directory_stack
      = fd.directory_stack.take (fd.directory_stack.length - fd.directory_offset) ++ [canon]
    ∧ (fd.load_directory fs p).2.directory_offset = 0
    ∧ (fd.directory_stack.take (fd.directory_stack.length - fd.directory_offset)).getLast?
        = fd.current_directory := by
  obtain ⟨fd2, heq, -, -, hstack, hoff0⟩ := load_directory_eq_content fs fd p canon hne hc
  refine ⟨?_, ?_, ?_⟩
  · rw [heq, ldc_stack, hstack, if_pos ⟨hoff, hlt⟩]
  · rw [heq, ldc_offset, hoff0]
  · unfold FileDialog.current_directory
    rw [List.getLast?_eq_getElem?, List.length_take,
        min_eq_left (Nat.sub_le fd.directory_stack.length fd.directory_offset),
        List.getElem?_take, if_pos (by omega), List.getElem?_reverse hlt]
    have hidx : fd.directory_stack.length - fd.directory_offset - 1
        = fd.directory_stack.length - 1 - fd.directory_offset := by omega
    rw [hidx]

/-- The state behind the C3 witness: open at `a`, navigate to `b`, go back
once, so the stack is `[a, b]` with offset 1. -/
def fdC3pre : FileDialog :=
  let fd := FileDialog.openDialog fsOk (FileDialog.new pA) DialogMode.SelectDirectory
  let fd := (fd.load_directory fsOk pB).2
  (fd.load_previous_directory fsOk).2

theorem C3_witness :
    (fdC3pre.load_directory fsOk pC).2.directory_stack
      = fdC3pre.directory_stack.take
          (fdC3pre.directory_stack.length - fdC3pre.directory_offset) ++ [pC]
    ∧ (fdC3pre.load_directory fsOk pC).2.directory_offset = 0 :=
  ⟨(C3_navigate_truncates_forward fsOk fdC3pre pC pC (by decide) (by decide)
      (by decide) rfl).1,
   (C3_navigate_truncates_forward fsOk fdC3pre pC pC (by decide) (by decide)
      (by decide) rfl).2.1⟩

/-- C9: the claim fails on the code — after a successful load the listing
still contains the entry whose name is not representable as text; entries
are only skipped later when the listing is displayed. -/
theorem C9_counterexample :
    fdC9run.1 = RunResult.ok
    ∧ fdC9run.2.directory_content = [[FName.raw 0]]
    ∧ getFileName [FName.raw 0] = none := by decide

/-- C9 (amended): a successful `load_directory_content` keeps every `Ok`
entry in the listing, including entries whose names are not representable
as text; such entries are silently skipped only in the displayed view,
every displayed entry having a representable name. -/
theorem C9_listing_and_display (fs : Fs) (fd : FileDialog) (path : FsPath)
    (es : List (Option FsPath)) (h : fs.readDir path = some es) :
    (fd.load_directory_content fs path).2.directory_content = es.filterMap id
    ∧ ∀ p ∈ displayed_entries (fd.load_directory_content fs path).2,
        (getFileName p).isSome = true := by
  constructor
  · unfold FileDialog.load_directory_content
    rw [h]
    dsimp only
    split <;> rfl
  · intro p hp
    unfold displayed_entries at hp
    rw [List.mem_filter] at hp
    rcases hp with ⟨-, hpred⟩
    cases hg : getFileName p
    · rw [hg] at hpred
      simp at hpred
    · rfl

theorem C9_witness :
    fdC9run.2.directory_content = List.filterMap id [some [FName.raw 0]] :=
  (C9_listing_and_display fsRaw (FileDialog.new pA) pA [some [FName.raw 0]] rfl).1

/-- C7: the claim fails on the code — re-opening a dialog (carrying a stale
save-name validation error) on an initial directory that canonicalizes but
cannot be read leaves the dialog open with an empty listing, yet the
history does gain an entry and the stale validation error is not reset. -/
theorem C7_counterexample :
    fdC7run.directory_stack = [pA]
    ∧ fdC7run.directory_stack ≠ []
    ∧ fdC7run.file_name_input_error = some "stale"
    ∧ fdC7run.directory_content = []
    ∧ fdC7run.state = DialogState.Open := by decide

/-- C7 (amended): `open(mode)` resets the history, listing, selection,
save-name input, search text and create-directory sub-dialog, sets the
lifecycle to Open and the mode to the argument, and loads the initial
directory; the save-name validation error is not reset by `open` itself —
it is only recomputed (to the "empty name" error) when the content load
succeeds in SaveFile mode.  If canonicalization of the initial directory
fails the history stays empty; if canonicalization succeeds but reading
fails, the canonicalized directory is still pushed as the sole history
entry with the listing left empty.  In every case the lifecycle remains
Open and no error propagates. -/
theorem C7_open_resets_session (fs : Fs) (fd : FileDialog) (m : DialogMode) :
    (FileDialog.openDialog fs fd m).mode = m
    ∧ (FileDialog.openDialog fs fd m).state = DialogState.Open
    ∧ (FileDialog.openDialog fs fd m).selected_item = none
    ∧ (FileDialog.openDialog fs fd m).search_value = ""
    ∧ (FileDialog.openDialog fs fd m).file_name_input = ""
    ∧ (FileDialog.openDialog fs fd m).create_directory_dialog = CreateDirectoryDialog.new
    ∧ (fs.canonicalize fd.initial_directory = none →
        (FileDialog.openDialog fs fd m).directory_stack = []
        ∧ (FileDialog.openDialog fs fd m).directory_content = []
        ∧ (FileDialog.openDialog fs fd m).file_name_input_error = fd.file_name_input_error)
    ∧ (∀ c, fs.canonicalize fd.initial_directory = some c →
        fs.readDir fd.initial_directory = none →
        (FileDialog.openDialog fs fd m).directory_stack = [c]
        ∧ (FileDialog.openDialog fs fd m).directory_content = []
        ∧ (FileDialog.openDialog fs fd m).file_name_input_error = fd.file_name_input_error)
    ∧ (∀ c es, fs.canonicalize fd.initial_directory = some c →
        fs.readDir fd.initial_directory = some es →
        (FileDialog.openDialog fs fd m).directory_stack = [c]
        ∧ (FileDialog.openDialog fs fd m).directory_content = es.filterMap id
        ∧ (m = DialogMode.SaveFile →
            (FileDialog.openDialog fs fd m).file_name_input_error
              = some "The file name cannot be empty")
        ∧ (m ≠ DialogMode.SaveFile →
            (FileDialog.openDialog fs fd m).file_name_input_error
              = fd.file_name_input_error)) := by
  rcases hc : fs.canonicalize fd.initial_directory with _ | c
  · simp [FileDialog.openDialog, FileDialog.load_directory, FileDialog.reset,
          FileDialog.current_directory, hc]
  · rcases hr : fs.readDir fd.initial_directory with _ | es
    · simp [FileDialog.openDialog, FileDialog.load_directory, FileDialog.reset,
            FileDialog.current_directory, FileDialog.load_directory_content, hc, hr]
    · simp [FileDialog.openDialog, FileDialog.load_directory, FileDialog.reset,
            FileDialog.current_directory, FileDialog.load_directory_content,
            FileDialog.validate_file_name_input, String.isEmpty_iff, hc, hr,
            CreateDirectoryDialog.close, CreateDirectoryDialog.reset,
            CreateDirectoryDialog.new]
      split_ifs with hm
      · simp [hm]
      · simp [hm]

theorem C7_witness :
    (FileDialog.openDialog fsOk (FileDialog.new pA) DialogMode.SaveFile).directory_stack = [pA]
    ∧ (FileDialog.openDialog fsOk (FileDialog.new pA) DialogMode.SaveFile).file_name_input_error
        = some "The file name cannot be empty" :=
  ⟨((C7_open_resets_session fsOk (FileDialog.new pA)
        DialogMode.SaveFile).2.2.2.2.2.2.2.2 pA [] rfl rfl).1,
   ((C7_open_resets_session fsOk (FileDialog.new pA)
        DialogMode.SaveFile).2.2.2.2.2.2.2.2 pA [] rfl rfl).2.2.1 rfl⟩

theorem histInv_of_offset_zero (fd : FileDialog) (h : fd.directory_offset = 0) :
    histInv fd := by
  unfold histInv
  cases hs : fd.directory_stack
  · exact Or.inl rfl
  · right
    rw [h]
    simp

theorem load_previous_noop (fs : Fs) (fd : FileDialog)
    (hg : fd.directory_offset + 1 ≥ fd.directory_stack.length) :
    fd.load_previous_directory fs = (RunResult.ok, fd) := by
  unfold FileDialog.load_previous_directory
  rw [if_pos hg]

theorem load_next_noop (fs : Fs) (fd : FileDialog) (hg : fd.directory_offset = 0) :
    fd.load_next_directory fs = (RunResult.ok, fd) := by
  unfold FileDialog.load_next_directory
  rw [if_pos hg]

theorem load_previous_history (fs : Fs) (fd : FileDialog)
    (hg : ¬ fd.directory_offset + 1 ≥ fd.directory_stack.length) :
    (fd.load_previous_directory fs).2.directory_stack = fd.directory_stack
    ∧ (fd.load_previous_directory fs).2.directory_offset = fd.directory_offset + 1 := by
  unfold FileDialog.load_previous_directory
  rw [if_neg hg]
  dsimp only
  split
  · rw [ldc_stack, ldc_offset]
    exact ⟨rfl, rfl⟩
  · exact ⟨rfl, rfl⟩

theorem load_next_history (fs : Fs) (fd : FileDialog)
    (hg : fd.directory_offset ≠ 0) :
    (fd.load_next_directory fs).2.directory_stack = fd.directory_stack
    ∧ (fd.load_next_directory fs).2.directory_offset = fd.directory_offset - 1 := by
  unfold FileDialog.load_next_directory
  rw [if_neg hg]
  dsimp only
  split
  · rw [ldc_stack, ldc_offset]
    exact ⟨rfl, rfl⟩
  · exact ⟨rfl, rfl⟩

theorem openDialog_offset (fs : Fs) (fd : FileDialog) (m : DialogMode) :
    (FileDialog.openDialog fs fd m).directory_offset = 0 := by
  rcases hc : fs.canonicalize fd.initial_directory with _ | c
  · simp [FileDialog.openDialog, FileDialog.load_directory, FileDialog.reset,
          FileDialog.current_directory, hc]
  · rcases hr : fs.readDir fd.initial_directory with _ | es
    · simp [FileDialog.openDialog, FileDialog.load_directory, FileDialog.reset,
            FileDialog.current_directory, FileDialog.load_directory_content, hc, hr]
    · simp [FileDialog.openDialog, FileDialog.load_directory, FileDialog.reset,
            FileDialog.current_directory, FileDialog.load_directory_content, hc, hr]
      split_ifs <;> rfl

/-- C1: the claim fails on the code — a reachable operation sequence
(open at `a`, navigate to `b` and `c`, back twice, then navigate to a path
whose canonicalization fails) truncates the forward history without
resetting the offset, leaving a non-empty stack with
`directory_offset ≥ directory_stack.length` (and `current_directory`
returning none). -/
theorem C1_counterexample :
    fdC1run.directory_stack = [pA]
    ∧ ¬ fdC1run.directory_offset < fdC1run.directory_stack.length
    ∧ fdC1run.current_directory = none := by decide

/-- C1 (amended): the invariant `offset < stack.length` (for a non-empty
stack) is preserved by open, back, forward and refresh, and by navigate
whenever the offset is 0 or canonicalization of the target succeeds (even
if the directory read then fails); when the invariant holds and the stack
is non-empty, `current_directory` is the entry at index
`stack.length - 1 - offset`.  (A canonicalization failure during navigate
with `offset > 0` can break the invariant, as the counterexample shows.) -/
theorem C1_history_invariant (fs : Fs) (fd : FileDialog) (m : DialogMode) (p : FsPath)
    (h : histInv fd) :
    histInv (FileDialog.openDialog fs fd m)
    ∧ histInv (fd.load_previous_directory fs).2
    ∧ histInv (fd.load_next_directory fs).2
    ∧ histInv (fd.refresh fs)
    ∧ (fd.directory_offset = 0 ∨ (fs.canonicalize p).isSome = true →
        histInv (fd.load_directory fs p).2)
    ∧ (fd.directory_stack ≠ [] →
        fd.current_directory
          = fd.directory_stack[fd.directory_stack.length - 1 - fd.directory_offset]?) := by
  refine ⟨?_, ?_, ?_, ?_, ?_, ?_⟩
  · exact histInv_of_offset_zero _ (openDialog_offset fs fd m)
  · by_cases hg : fd.directory_offset + 1 ≥ fd.directory_stack.length
    · rw [load_previous_noop fs fd hg]
      exact h
    · obtain ⟨hs, ho⟩ := load_previous_history fs fd hg
      unfold histInv
      rw [hs, ho]
      right
      omega
  · by_cases hg : fd.directory_offset = 0
    · rw [load_next_noop fs fd hg]
      exact h
    · obtain ⟨hs, ho⟩ := load_next_history fs fd hg
      unfold histInv
      rw [hs, ho]
      rcases h with h | h
      · exact Or.inl h
      · right
        omega
  · unfold FileDialog.refresh FileDialog.reload_directory
    cases fd.current_directory
    · exact h
    · unfold histInv
      rw [ldc_stack, ldc_offset]
      exact h
  · intro hyp
    by_cases hcur : fd.current_directory = some p
    · rw [load_directory_same fs fd p hcur]
      exact h
    · rcases hco : fs.canonicalize p with _ | c
      · rcases hyp with h0 | hsome
        · rw [load_directory_canon_fail fs fd p hcur h0 hco]
          exact h
        · rw [hco] at hsome
          simp at hsome
      · obtain ⟨fd2, heq, -, -, -, hoff0⟩ :=
          load_directory_eq_content fs fd p c hcur hco
        rw [heq]
        refine histInv_of_offset_zero _ ?_
        rw [ldc_offset, hoff0]
  · intro hne
    have hlt : fd.directory_offset < fd.directory_stack.length := by
      rcases h with h | h
      · exact absurd h hne
      · exact h
    unfold FileDialog.current_directory
    exact List.getElem?_reverse hlt

theorem C1_witness :
    histInv ((FileDialog.new pA).load_directory fsOk pB).2 :=
  (C1_history_invariant fsOk (FileDialog.new pA) DialogMode.SelectFile pB
      (Or.inl rfl)).2.2.2.2.1 (Or.inl rfl)

end EguiFileDialog
